import Mathlib

/-!
Verification of the two hummingbot strategy scripts `rsi-amm-joi.py` (class
`RSIAMM`, variant 1) and `rsi-amm-joi-v2.py` (class `RsiAmmV2`, variant 2).

The scripts' numeric arithmetic (Python `Decimal` mixed with floats from
pandas) is embedded over the rationals `ℚ`; the candle frames are embedded as
the lists of oscillator (RSI) values the code actually inspects, and the host
framework lookups (mid price, NATR volatility) appear as parameters.
A Python method reading `self.<attr>` / `self.config.<attr>` is embedded as a
function taking those attributes as parameters; the concrete attribute values
from each script are separate definitions.
-/

namespace RsiAmmScripts

/-- Trade side of an order, as in `hummingbot TradeType` (`BUY` / `SELL`). -/
inductive TradeType where
  | BUY
  | SELL
  deriving DecidableEq, Repr

/-- Order kind, as in `hummingbot OrderType` (only `LIMIT` is used here). -/
inductive OrderType where
  | LIMIT
  | MARKET
  deriving DecidableEq, Repr

/-- The fields of a `hummingbot OrderCandidate` that the scripts set. -/
structure OrderCandidate where
  trading_pair : String
  is_maker : Bool
  order_type : OrderType
  order_side : TradeType
  amount : ℚ
  price : ℚ
  deriving DecidableEq, Repr

/-- The two mutable fields driving the signal-refresh timer shared by
`RSIAMM.on_tick` (lines 67-70) and `RsiAmmV2.create_actions_proposal`
(lines 118-121): the stored refresh deadline `create_timestamp` and the
cached signal `rsi_signal`. -/
structure TimerState where
  create_timestamp : ℚ
  rsi_signal : Int
  deriving DecidableEq, Repr

namespace V1

/-- `RSIAMM.bid_spread` (rsi-amm-joi.py line 26). -/
def bid_spread : ℚ := 1

/-- `RSIAMM.ask_spread` (line 27). -/
def ask_spread : ℚ := 1

/-- `RSIAMM.rsi_refresh_time` (line 28). -/
def rsi_refresh_time : ℚ := 15

/-- `RSIAMM.order_amount` (line 29), the literal `0.0005`. -/
def order_amount : ℚ := 5 / 10000

/-- `RSIAMM.natr_period` (line 34). -/
def natr_period : ℕ := 100

/-- `RSIAMM.buffer_size` (line 37). -/
def buffer_size : ℚ := 100

/-- `RSIAMM.rsi_spread_change_percentage` (line 38), the literal `0.5`. -/
def rsi_spread_change_percentage : ℚ := 1 / 2

/-- `RSIAMM.trading_pair` (line 31). -/
def trading_pair : String := "BTC-USDT"

/-- `RSIAMM.get_rsi_signal` (rsi-amm-joi.py lines 82-99), over the list of
RSI values of the candle frame.  The code reads the latest RSI value with
`candles_df.iat[-1, -1]`, which on an empty frame is an index error (embedded
as `Except.error`), then thresholds it at 70 (sell, `-1`) and 30 (buy, `1`),
returning `0` otherwise. -/
def get_rsi_signal (rsi_values : List ℚ) : Except String Int :=
  match rsi_values.getLast? with
  | none => Except.error "IndexError"
  | some rsi_value =>
    if rsi_value > 70 then Except.ok (-1)
    else if rsi_value < 30 then Except.ok 1
    else Except.ok 0

/-- The mid-price adjustment of `RSIAMM.create_proposal`
(rsi-amm-joi.py lines 113-118): on `rsi_signal == 1` the mid price is shifted
up by the factor `1 + bid_spread * natr * rsi_spread_change_percentage`, on
`rsi_signal == -1` down by the symmetric factor, otherwise left unchanged.
The attributes the method reads are parameters. -/
def adjusted_mid_price (bid_spread rsi_spread_change_percentage : ℚ)
    (rsi_signal : Int) (mid_price natr : ℚ) : ℚ :=
  if rsi_signal = 1 then
    mid_price * (1 + bid_spread * natr * rsi_spread_change_percentage)
  else if rsi_signal = -1 then
    mid_price * (1 - bid_spread * natr * rsi_spread_change_percentage)
  else
    mid_price

/-- The price computation of `RSIAMM.create_proposal`
(rsi-amm-joi.py lines 113-121):
`buy_price = adjusted_mid_price * (1 - bid_spread * natr)` and
`sell_price = adjusted_mid_price * (1 + ask_spread * natr)`. -/
def create_proposal_prices (bid_spread ask_spread rsi_spread_change_percentage : ℚ)
    (rsi_signal : Int) (mid_price natr : ℚ) : ℚ × ℚ :=
  let adjusted := adjusted_mid_price bid_spread rsi_spread_change_percentage
    rsi_signal mid_price natr
  (adjusted * (1 - bid_spread * natr), adjusted * (1 + ask_spread * natr))

/-- `RSIAMM.create_proposal` (rsi-amm-joi.py lines 111-129): the two maker
limit order candidates built from the computed buy/sell prices, both sized at
`order_amount`. -/
def create_proposal (bid_spread ask_spread rsi_spread_change_percentage : ℚ)
    (order_amount : ℚ) (trading_pair : String)
    (rsi_signal : Int) (mid_price natr : ℚ) : List OrderCandidate :=
  let prices := create_proposal_prices bid_spread ask_spread
    rsi_spread_change_percentage rsi_signal mid_price natr
  let buy_order : OrderCandidate :=
    { trading_pair := trading_pair, is_maker := true, order_type := OrderType.LIMIT,
      order_side := TradeType.BUY, amount := order_amount, price := prices.1 }
  let sell_order : OrderCandidate :=
    { trading_pair := trading_pair, is_maker := true, order_type := OrderType.LIMIT,
      order_side := TradeType.SELL, amount := order_amount, price := prices.2 }
  [buy_order, sell_order]

/-- The signal-refresh step of `RSIAMM.on_tick` (rsi-amm-joi.py lines 67-70):
when `create_timestamp <= current_timestamp` the signal is recomputed (its
freshly computed value is the parameter `fresh_signal`) and the deadline is
reset to `rsi_refresh_time + current_timestamp`; otherwise the state is left
untouched. -/
def signal_refresh_step (s : TimerState) (current_timestamp : ℚ)
    (fresh_signal : Int) (rsi_refresh_time : ℚ) : TimerState :=
  if s.create_timestamp ≤ current_timestamp then
    { create_timestamp := rsi_refresh_time + current_timestamp,
      rsi_signal := fresh_signal }
  else s

/-- The re-quote test of `RSIAMM.on_tick` line 72 (identical at
`RsiAmmV2.create_actions_proposal` line 123):
`last_mid_price is None or abs(new_mid_price - last_mid_price) > buffer_size`. -/
def should_requote (last_mid_price : Option ℚ) (new_mid_price buffer_size : ℚ) :
    Bool :=
  match last_mid_price with
  | none => true
  | some last => decide (|new_mid_price - last| > buffer_size)

/-- Attribute names defined on class `RSIAMM` itself
(rsi-amm-joi.py lines 26-48); variant 1 has no separate config class, its
configuration surface is these class attributes. -/
def rsiamm_class_attrs : List String :=
  ["bid_spread", "ask_spread", "rsi_refresh_time", "order_amount",
   "create_timestamp", "trading_pair", "exchange", "interval", "natr_period",
   "TICK", "rsi_signal", "buffer_size", "rsi_spread_change_percentage",
   "price_source", "candles", "markets", "last_mid_price"]

/-- Names of the `self.` attributes read by `RSIAMM.get_natr`
(rsi-amm-joi.py lines 131-136). -/
def get_natr_attr_reads : List String :=
  ["exchange", "trading_pair", "interval", "max_records", "natr_period"]

end V1

namespace V2

/-- `RsiAmmV2Config.bid_spread` (rsi-amm-joi-v2.py line 64). -/
def bid_spread : ℚ := 1

/-- `RsiAmmV2Config.ask_spread` (line 65). -/
def ask_spread : ℚ := 1

/-- `RsiAmmV2Config.rsi_refresh_time` (line 66). -/
def rsi_refresh_time : ℚ := 15

/-- `RsiAmmV2Config.buffer_size` (line 71). -/
def buffer_size : ℚ := 100

/-- `RsiAmmV2Config.rsi_spread_change_percentage` (line 72), literal `0.5`. -/
def rsi_spread_change_percentage : ℚ := 1 / 2

/-- `RsiAmmV2Config.rsi_low` default (line 42). -/
def rsi_low : ℚ := 30

/-- `RsiAmmV2Config.rsi_high` default (line 47). -/
def rsi_high : ℚ := 70

/-- `RsiAmmV2.get_signal` (rsi-amm-joi-v2.py lines 155-161), over the list of
RSI values of the candle frame.  The code initialises a `signal` column to 0,
sets it to 1 where `RSI < rsi_low`, then to -1 where `RSI > rsi_high` (the
second masked assignment overwrites the first where both hold), and returns
the last row's signal, or `None` when the frame is empty. -/
def get_signal (rsi_low rsi_high : ℚ) (rsi_values : List ℚ) : Option Int :=
  let signals := rsi_values.map (fun rsi =>
    if rsi > rsi_high then (-1 : Int) else if rsi < rsi_low then 1 else 0)
  if rsi_values = [] then none else signals.getLast?

/-- The mid-price adjustment of `RsiAmmV2.create_proposal`
(rsi-amm-joi-v2.py lines 164-169), same shape as variant 1 but reading
`self.config.bid_spread` and `self.config.rsi_spread_change_percentage`. -/
def adjusted_mid_price (bid_spread rsi_spread_change_percentage : ℚ)
    (rsi_signal : Int) (mid_price natr : ℚ) : ℚ :=
  if rsi_signal = 1 then
    mid_price * (1 + bid_spread * natr * rsi_spread_change_percentage)
  else if rsi_signal = -1 then
    mid_price * (1 - bid_spread * natr * rsi_spread_change_percentage)
  else
    mid_price

/-- The price computation of `RsiAmmV2.create_proposal`
(rsi-amm-joi-v2.py lines 164-172). -/
def create_proposal_prices (bid_spread ask_spread rsi_spread_change_percentage : ℚ)
    (rsi_signal : Int) (mid_price natr : ℚ) : ℚ × ℚ :=
  let adjusted := adjusted_mid_price bid_spread rsi_spread_change_percentage
    rsi_signal mid_price natr
  (adjusted * (1 - bid_spread * natr), adjusted * (1 + ask_spread * natr))

/-- `RsiAmmV2.create_proposal` (rsi-amm-joi-v2.py lines 162-180): two maker
limit order candidates at the computed prices, both sized at
`Decimal(config.order_amount_quote)`. -/
def create_proposal (bid_spread ask_spread rsi_spread_change_percentage : ℚ)
    (order_amount_quote : ℚ) (trading_pair : String)
    (rsi_signal : Int) (mid_price natr : ℚ) : List OrderCandidate :=
  let prices := create_proposal_prices bid_spread ask_spread
    rsi_spread_change_percentage rsi_signal mid_price natr
  let buy_order : OrderCandidate :=
    { trading_pair := trading_pair, is_maker := true, order_type := OrderType.LIMIT,
      order_side := TradeType.BUY, amount := order_amount_quote, price := prices.1 }
  let sell_order : OrderCandidate :=
    { trading_pair := trading_pair, is_maker := true, order_type := OrderType.LIMIT,
      order_side := TradeType.SELL, amount := order_amount_quote, price := prices.2 }
  [buy_order, sell_order]

/-- Number of required positional parameters of `RsiAmmV2.get_signal`
(rsi-amm-joi-v2.py line 155): `connector_name` and `trading_pair`, neither
with a default. -/
def get_signal_required_args : ℕ := 2

/-- Number of arguments passed at the call site `self.get_signal()` inside
`RsiAmmV2.create_actions_proposal` (rsi-amm-joi-v2.py line 120). -/
def get_signal_call_args : ℕ := 0

/-- The signal-refresh step of `RsiAmmV2.create_actions_proposal`
(rsi-amm-joi-v2.py lines 118-121).  The guard is the same as in variant 1,
but the branch calls `self.get_signal()` with no arguments; in Python a call
whose argument count does not match the required parameter count raises
`TypeError`, embedded as `Except.error`.  `fresh_signal` is the value the
call would produce were its arguments supplied. -/
def signal_refresh_step (s : TimerState) (current_timestamp : ℚ)
    (fresh_signal : Int) (rsi_refresh_time : ℚ) : Except String TimerState :=
  if s.create_timestamp ≤ current_timestamp then
    if get_signal_call_args = get_signal_required_args then
      Except.ok { create_timestamp := rsi_refresh_time + current_timestamp,
                  rsi_signal := fresh_signal }
    else Except.error "TypeError"
  else Except.ok s

/-- Field names defined on `RsiAmmV2Config` in this repository
(rsi-amm-joi-v2.py lines 21-72); the inherited `StrategyV2ConfigBase` fields
belong to the host framework and define no volatility window either. -/
def config_attrs : List String :=
  ["script_file_name", "candles_config", "markets", "connector",
   "trading_pair", "rsi_period", "rsi_low", "rsi_high", "interval",
   "order_amount_quote", "max_records", "bid_spread", "ask_spread",
   "rsi_refresh_time", "create_timestamp", "exchange", "TICK", "buffer_size",
   "rsi_spread_change_percentage"]

/-- Names of the `self.config.` attributes read by `RsiAmmV2.get_natr`
(rsi-amm-joi-v2.py lines 185-190). -/
def get_natr_config_reads : List String :=
  ["exchange", "trading_pair", "interval", "natr_period"]

end V2

/-- Variant 1's quote prices at the script's own attribute values
(`bid_spread = 1`, `ask_spread = 1`, `rsi_spread_change_percentage = 0.5`). -/
def v1_prices (rsi_signal : Int) (mid_price natr : ℚ) : ℚ × ℚ :=
  V1.create_proposal_prices V1.bid_spread V1.ask_spread
    V1.rsi_spread_change_percentage rsi_signal mid_price natr

/-- Variant 2's quote prices at its config's attribute values
(`bid_spread = 1`, `ask_spread = 1`, `rsi_spread_change_percentage = 0.5`). -/
def v2_prices (rsi_signal : Int) (mid_price natr : ℚ) : ℚ × ℚ :=
  V2.create_proposal_prices V2.bid_spread V2.ask_spread
    V2.rsi_spread_change_percentage rsi_signal mid_price natr

/-- Helper: mapping commutes with taking the last element of a list. -/
theorem getLast?_map {α β : Type} (f : α → β) (l : List α) :
    (l.map f).getLast? = l.getLast?.map f := by
  induction l with
  | nil => rfl
  | cons a t ih =>
    cases t with
    | nil => rfl
    | cons b t2 =>
      rw [List.map_cons, List.map_cons, List.getLast?_cons_cons,
        List.getLast?_cons_cons, ← List.map_cons, ih]

/-- C1: the quote computation shifts the mid price up by
`mid * bid_spread * volatility * skew_pct` on a BUY signal (`1`), down by the
symmetric amount on a SELL signal (`-1`), otherwise keeps the mid price, and
returns `buy = reference * (1 - bid_spread * volatility)` and
`sell = reference * (1 + ask_spread * volatility)`; for mid 100, NEUTRAL
signal, unit spreads and volatility `0.01` it returns `(99, 101)`.  Variant
2's computation coincides with variant 1's (last conjunct). -/
theorem C1_quote_formula (bid ask skew vol mid : ℚ) (sig : Int) :
    (sig = 1 → V1.create_proposal_prices bid ask skew sig mid vol =
      ((mid + mid * bid * vol * skew) * (1 - bid * vol),
       (mid + mid * bid * vol * skew) * (1 + ask * vol)))
  ∧ (sig = -1 → V1.create_proposal_prices bid ask skew sig mid vol =
      ((mid - mid * bid * vol * skew) * (1 - bid * vol),
       (mid - mid * bid * vol * skew) * (1 + ask * vol)))
  ∧ (sig ≠ 1 → sig ≠ -1 → V1.create_proposal_prices bid ask skew sig mid vol =
      (mid * (1 - bid * vol), mid * (1 + ask * vol)))
  ∧ V1.create_proposal_prices 1 1 skew 0 100 (1 / 100) = (99, 101)
  ∧ V2.create_proposal_prices bid ask skew sig mid vol =
      V1.create_proposal_prices bid ask skew sig mid vol := by
  refine ⟨?_, ?_, ?_, ?_, rfl⟩
  · rintro rfl
    have h : V1.create_proposal_prices bid ask skew 1 mid vol =
        (mid * (1 + bid * vol * skew) * (1 - bid * vol),
         mid * (1 + bid * vol * skew) * (1 + ask * vol)) := rfl
    rw [h, Prod.mk.injEq]
    constructor <;> ring
  · rintro rfl
    have h : V1.create_proposal_prices bid ask skew (-1) mid vol =
        (mid * (1 - bid * vol * skew) * (1 - bid * vol),
         mid * (1 - bid * vol * skew) * (1 + ask * vol)) := rfl
    rw [h, Prod.mk.injEq]
    constructor <;> ring
  · intro h1 h2
    simp only [V1.create_proposal_prices, V1.adjusted_mid_price, if_neg h1,
      if_neg h2]
  · simp only [V1.create_proposal_prices, V1.adjusted_mid_price]
    norm_num [Prod.mk.injEq]

/-- C1 witness: the BUY-signal case evaluated at
`bid = ask = 1`, `skew = 1/2`, `vol = 1/100`, `mid = 100`. -/
theorem C1_quote_formula_witness :
    V1.create_proposal_prices 1 1 (1 / 2) 1 100 (1 / 100) =
      ((100 + 100 * 1 * (1 / 100) * (1 / 2)) * (1 - 1 * (1 / 100)),
       (100 + 100 * 1 * (1 / 100) * (1 / 2)) * (1 + 1 * (1 / 100))) :=
  (C1_quote_formula 1 1 (1 / 2) (1 / 100) 100 1).1 rfl

/-- C2 counterexample: with `bid_spread = ask_spread = 1 > 0` and
`volatility = 3 > 0`, a SELL signal at mid price 100 makes the adjusted mid
price `-50`, giving buy price `100` and sell price `-200`, so the buy price
is not strictly below the sell price. -/
theorem C2_counterexample :
    (0 : ℚ) < 1 ∧ (0 : ℚ) < 3 ∧
    ¬ ((V1.create_proposal_prices 1 1 (1 / 2) (-1) 100 3).1 <
       (V1.create_proposal_prices 1 1 (1 / 2) (-1) 100 3).2) := by
  refine ⟨by norm_num, by norm_num, ?_⟩
  norm_num [V1.create_proposal_prices, V1.adjusted_mid_price]

/-- C2 amended: with `bid_spread, ask_spread, volatility > 0`, both variants
return a buy price strictly below the sell price whenever the signal-adjusted
reference mid price is strictly positive (in particular for any positive mid
price with a non-SELL signal). -/
theorem C2_buy_below_sell (bid ask skew vol mid : ℚ) (sig : Int)
    (hb : 0 < bid) (ha : 0 < ask) (hv : 0 < vol)
    (hadj : 0 < V1.adjusted_mid_price bid skew sig mid vol) :
    (V1.create_proposal_prices bid ask skew sig mid vol).1 <
      (V1.create_proposal_prices bid ask skew sig mid vol).2
  ∧ (V2.create_proposal_prices bid ask skew sig mid vol).1 <
      (V2.create_proposal_prices bid ask skew sig mid vol).2 := by
  have key : ∀ r : ℚ, 0 < r → r * (1 - bid * vol) < r * (1 + ask * vol) := by
    intro r hr
    nlinarith [mul_pos hr (mul_pos hb hv), mul_pos hr (mul_pos ha hv)]
  exact ⟨key _ hadj, key _ hadj⟩

/-- C2 witness: the amended statement at
`bid = ask = 1`, `vol = 1/100`, `mid = 100`, NEUTRAL signal. -/
theorem C2_buy_below_sell_witness :
    (0 : ℚ) < 1 ∧ (0 : ℚ) < 1 / 100 ∧
    0 < V1.adjusted_mid_price 1 (1 / 2) 0 100 (1 / 100) ∧
    (V1.create_proposal_prices 1 1 (1 / 2) 0 100 (1 / 100)).1 <
      (V1.create_proposal_prices 1 1 (1 / 2) 0 100 (1 / 100)).2 :=
  ⟨by norm_num, by norm_num, by norm_num [V1.adjusted_mid_price],
   (C2_buy_below_sell 1 1 (1 / 2) (1 / 100) 100 0 (by norm_num) (by norm_num)
     (by norm_num) (by norm_num [V1.adjusted_mid_price])).1⟩

/-- C3: on a candle window whose latest oscillator value is `v`, variant 1
returns BUY (`1`) when `v < 30`, SELL (`-1`) when `v > 70`, else NEUTRAL
(`0`); variant 2, with thresholds `rsi_low ≤ rsi_high`, returns BUY when
`v < rsi_low`, SELL when `v > rsi_high`, else NEUTRAL. -/
theorem C3_signal_thresholds (rsi_values : List ℚ) (v rsi_low rsi_high : ℚ)
    (hlast : rsi_values.getLast? = some v) (hlh : rsi_low ≤ rsi_high) :
    ((v < 30 → V1.get_rsi_signal rsi_values = Except.ok 1)
   ∧ (70 < v → V1.get_rsi_signal rsi_values = Except.ok (-1))
   ∧ (30 ≤ v → v ≤ 70 → V1.get_rsi_signal rsi_values = Except.ok 0))
  ∧ ((v < rsi_low → V2.get_signal rsi_low rsi_high rsi_values = some 1)
   ∧ (rsi_high < v → V2.get_signal rsi_low rsi_high rsi_values = some (-1))
   ∧ (rsi_low ≤ v → v ≤ rsi_high →
        V2.get_signal rsi_low rsi_high rsi_values = some 0)) := by
  have hne : rsi_values ≠ [] := by
    rintro rfl
    simp at hlast
  have hv1 : V1.get_rsi_signal rsi_values =
      (if v > 70 then Except.ok (-1)
       else if v < 30 then Except.ok 1 else Except.ok 0) := by
    unfold V1.get_rsi_signal
    rw [hlast]
  have hv2 : V2.get_signal rsi_low rsi_high rsi_values =
      some (if v > rsi_high then (-1 : Int)
            else if v < rsi_low then 1 else 0) := by
    simp only [V2.get_signal]
    rw [if_neg hne, getLast?_map, hlast]
    rfl
  refine ⟨⟨?_, ?_, ?_⟩, ?_, ?_, ?_⟩
  · intro h
    rw [hv1, if_neg (by linarith : ¬ (70 : ℚ) < v), if_pos h]
  · intro h
    rw [hv1, if_pos h]
  · intro h1 h2
    rw [hv1, if_neg (not_lt.mpr h2), if_neg (not_lt.mpr h1)]
  · intro h
    rw [hv2, if_neg (by linarith : ¬ rsi_high < v), if_pos h]
  · intro h
    rw [hv2, if_pos h]
  · intro h1 h2
    rw [hv2, if_neg (not_lt.mpr h2), if_neg (not_lt.mpr h1)]

/-- C3 witness: a window whose latest RSI value 25 is below the low
threshold 30 yields a BUY signal in both variants. -/
theorem C3_signal_thresholds_witness :
    V1.get_rsi_signal [25] = Except.ok 1 ∧ V2.get_signal 30 70 [25] = some 1 :=
  ⟨((C3_signal_thresholds [25] 25 30 70 rfl (by norm_num)).1).1 (by norm_num),
   ((C3_signal_thresholds [25] 25 30 70 rfl (by norm_num)).2).1 (by norm_num)⟩

/-- C4 counterexample: variant 1's signal computation on an empty candle
window is an index error (`candles_df.iat[-1, -1]` on an empty frame), not a
returned "no signal" value, so the behavior does not hold for both
variants. -/
theorem C4_counterexample :
    V1.get_rsi_signal [] = Except.error "IndexError" := rfl

/-- C4 amended: only variant 2 returns a "no signal" value (`None`) on an
empty candle window; variant 1's signal computation raises an index error
there. -/
theorem C4_empty_window :
    (∀ rsi_low rsi_high : ℚ, V2.get_signal rsi_low rsi_high [] = none)
  ∧ V1.get_rsi_signal [] = Except.error "IndexError" :=
  ⟨fun _ _ => rfl, rfl⟩

/-- C5: the re-quote decision is true exactly when the last mid price is
unset or the new mid price deviates from it by strictly more than the
buffer; hence it is true on the first call and false whenever the new mid
price is within the buffer of the last one. -/
theorem C5_should_requote (last : Option ℚ) (l new_mid buffer : ℚ) :
    (V1.should_requote last new_mid buffer = true ↔
      last = none ∨ ∃ prev, last = some prev ∧ |new_mid - prev| > buffer)
  ∧ V1.should_requote none new_mid buffer = true
  ∧ (|new_mid - l| ≤ buffer →
      V1.should_requote (some l) new_mid buffer = false) := by
  refine ⟨?_, rfl, ?_⟩
  · cases last with
    | none => simp [V1.should_requote]
    | some p => simp [V1.should_requote]
  · intro h
    simp [V1.should_requote, not_lt.mpr h]

/-- C5 witness: with a remembered mid price of 100 and buffer 100, a new mid
price of 150 lies within the buffer and triggers no re-quote. -/
theorem C5_should_requote_witness :
    V1.should_requote (some 100) 150 100 = false :=
  (C5_should_requote (some 100) 100 150 100).2.2 (by norm_num [abs_le])

/-- C6: a tick strictly before the stored refresh deadline leaves the
deadline and the cached signal untouched; once the deadline has passed the
cached signal is replaced by the freshly computed one and the deadline is
reset to the refresh interval past the current timestamp. -/
theorem C6_refresh_timer (s : TimerState) (now : ℚ) (fresh : Int)
    (refresh : ℚ) :
    (now < s.create_timestamp →
      V1.signal_refresh_step s now fresh refresh = s)
  ∧ (s.create_timestamp ≤ now →
      V1.signal_refresh_step s now fresh refresh =
        { create_timestamp := refresh + now, rsi_signal := fresh }) := by
  constructor
  · intro h
    simp [V1.signal_refresh_step, not_le.mpr h]
  · intro h
    simp [V1.signal_refresh_step, h]

/-- C6 witness: at deadline 20 a tick at time 10 changes nothing; at
deadline 0 a tick at time 10 stores the fresh signal and deadline 15 + 10. -/
theorem C6_refresh_timer_witness :
    V1.signal_refresh_step ⟨20, 5⟩ 10 1 15 = ⟨20, 5⟩
  ∧ V1.signal_refresh_step ⟨0, 5⟩ 10 1 15 = ⟨15 + 10, 1⟩ :=
  ⟨(C6_refresh_timer ⟨20, 5⟩ 10 1 15).1 (by norm_num),
   (C6_refresh_timer ⟨0, 5⟩ 10 1 15).2 (by norm_num)⟩

/-- C7: each variant's quoting pass returns exactly two order candidates: a
maker limit BUY at the computed buy price and a maker limit SELL at the
computed sell price, both sized at the configured amount. -/
theorem C7_two_orders (bid ask skew amount : ℚ) (pair : String) (sig : Int)
    (mid natr : ℚ) :
    (V1.create_proposal bid ask skew amount pair sig mid natr).length = 2
  ∧ V1.create_proposal bid ask skew amount pair sig mid natr =
      [{ trading_pair := pair, is_maker := true, order_type := OrderType.LIMIT,
         order_side := TradeType.BUY, amount := amount,
         price := (V1.create_proposal_prices bid ask skew sig mid natr).1 },
       { trading_pair := pair, is_maker := true, order_type := OrderType.LIMIT,
         order_side := TradeType.SELL, amount := amount,
         price := (V1.create_proposal_prices bid ask skew sig mid natr).2 }]
  ∧ (V2.create_proposal bid ask skew amount pair sig mid natr).length = 2
  ∧ V2.create_proposal bid ask skew amount pair sig mid natr =
      [{ trading_pair := pair, is_maker := true, order_type := OrderType.LIMIT,
         order_side := TradeType.BUY, amount := amount,
         price := (V2.create_proposal_prices bid ask skew sig mid natr).1 },
       { trading_pair := pair, is_maker := true, order_type := OrderType.LIMIT,
         order_side := TradeType.SELL, amount := amount,
         price := (V2.create_proposal_prices bid ask skew sig mid natr).2 }] :=
  ⟨rfl, rfl, rfl, rfl⟩

/-- C8 counterexample: variant 1 does define `natr_period` — it is a class
attribute of `RSIAMM` (rsi-amm-joi.py line 34, value 100), the class whose
attributes are variant 1's entire configuration surface — and its volatility
computation `get_natr` reads exactly that attribute; so "never defined" fails
for the first variant. -/
theorem C8_counterexample :
    "natr_period" ∈ V1.rsiamm_class_attrs
  ∧ "natr_period" ∈ V1.get_natr_attr_reads
  ∧ V1.natr_period = 100 := by
  refine ⟨?_, ?_, rfl⟩ <;> decide

/-- C8 amended: it is the second variant whose volatility computation
(`RsiAmmV2.get_natr`) reads a `natr_period` field never defined on its
configuration class `RsiAmmV2Config`; the first variant defines
`natr_period` among its class attributes. -/
theorem C8_natr_period_undefined_v2 :
    "natr_period" ∈ V2.get_natr_config_reads
  ∧ "natr_period" ∉ V2.config_attrs
  ∧ "natr_period" ∈ V1.rsiamm_class_attrs := by
  refine ⟨?_, ?_, ?_⟩ <;> decide

/-- C9: in variant 2, on any tick where the refresh deadline has passed, the
handler's call `self.get_signal()` supplies 0 of the 2 required positional
arguments, so the signal-refresh branch raises a `TypeError` instead of
producing a signal value. -/
theorem C9_refresh_branch_raises (s : TimerState) (now : ℚ) (fresh : Int)
    (refresh : ℚ) (h : s.create_timestamp ≤ now) :
    V2.get_signal_call_args ≠ V2.get_signal_required_args
  ∧ V2.signal_refresh_step s now fresh refresh = Except.error "TypeError" := by
  refine ⟨by decide, ?_⟩
  simp [V2.signal_refresh_step, h, V2.get_signal_call_args,
    V2.get_signal_required_args]

/-- C9 witness: a tick at time 10 with deadline 0 hits the error branch. -/
theorem C9_refresh_branch_raises_witness :
    V2.signal_refresh_step ⟨0, 0⟩ 10 1 15 = Except.error "TypeError" :=
  (C9_refresh_branch_raises ⟨0, 0⟩ 10 1 15 (by norm_num)).2

/-- C10: at the two variants' shared attribute values
(`bid_spread = ask_spread = 1`, `rsi_spread_change_percentage = 0.5`), the
two quote-price computations return identical buy and sell prices for every
mid price, cached signal value and volatility value. -/
theorem C10_variants_agree (sig : Int) (mid natr : ℚ) :
    v1_prices sig mid natr = v2_prices sig mid natr := rfl

end RsiAmmScripts
